import Mathlib

/-!
Verification of `myportfolio/storage.py`.

The repository defines a single class,
`NonStrictManifestStaticFilesStorage`, which subclasses WhiteNoise's
`CompressedManifestStaticFilesStorage` and overrides exactly one class
attribute: `manifest_strict = False`.  The manifest-lookup behaviour
governed by that flag lives in the external Django/WhiteNoise dependency,
which is not part of this repository's sources; those parts are modelled
from the specification's description of the resolution contract.
-/

/-- A static-files storage configuration.  The only behaviourally relevant
attribute touched by this repository is the strictness flag. -/
structure StorageConfig where
  manifest_strict : Bool
deriving DecidableEq, Repr

/-- Modelled from the spec: Django's `ManifestStaticFilesStorage` (and hence
WhiteNoise's compressed variant) is missing from the repository sources; per
the spec its inherited default is strict (`manifest_strict = True`). -/
def ManifestStaticFilesStorage : StorageConfig :=
  { manifest_strict := true }

/-- Modelled from the spec: WhiteNoise's `CompressedManifestStaticFilesStorage`
is missing from the repository sources; it inherits the strictness default
from Django's manifest storage unchanged. -/
def CompressedManifestStaticFilesStorage : StorageConfig :=
  ManifestStaticFilesStorage

/-- The repository's class (`src/myportfolio/storage.py`): inherit the
compressed manifest storage and set `manifest_strict` to `False`. -/
def NonStrictManifestStaticFilesStorage : StorageConfig :=
  { CompressedManifestStaticFilesStorage with manifest_strict := false }

/-- A manifest: a finite mapping from logical asset keys to resolved
(cache-busted) asset keys, represented as an association list. -/
def Manifest : Type := List (String × String)

/-- Lookup of a logical key in a manifest. -/
def Manifest.find (m : Manifest) (k : String) : Option String :=
  List.lookup k m

/-- The single failure mode of resolution: the logical key was not found in
the manifest. -/
inductive ResolveError where
  | MissingManifestEntry (key : String)
deriving DecidableEq, Repr

/-- Modelled from the spec: the manifest resolution routine of the external
Django/WhiteNoise dependency is missing from the repository sources.  Per the
spec: look the key up in the manifest; if present return the mapped value; if
absent fail with `MissingManifestEntry` when strict, otherwise return the key
unchanged. -/
def resolve (m : Manifest) (strict : Bool) (k : String) : Except ResolveError String :=
  match m.find k with
  | some v => Except.ok v
  | none => if strict then Except.error (ResolveError.MissingManifestEntry k) else Except.ok k

/-- Resolution as performed by a given storage configuration. -/
def StorageConfig.resolveWith (c : StorageConfig) (m : Manifest) (k : String) :
    Except ResolveError String :=
  resolve m c.manifest_strict k

/-- C1: the subclass's only behavioural change relative to the inherited
backend is setting the strictness flag to non-strict: the inherited default
is strict, the subclass is non-strict and otherwise identical, and on a key
absent from the manifest the subclass falls back to the unhashed key while
the inherited backend raises an error. -/
theorem nonstrict_only_change (m : Manifest) (k : String)
    (habs : m.find k = none) :
    NonStrictManifestStaticFilesStorage.manifest_strict = false ∧
    CompressedManifestStaticFilesStorage.manifest_strict = true ∧
    NonStrictManifestStaticFilesStorage =
      { CompressedManifestStaticFilesStorage with manifest_strict := false } ∧
    NonStrictManifestStaticFilesStorage.resolveWith m k = Except.ok k ∧
    CompressedManifestStaticFilesStorage.resolveWith m k =
      Except.error (ResolveError.MissingManifestEntry k) := by
  refine ⟨rfl, rfl, rfl, ?_, ?_⟩ <;>
    simp [StorageConfig.resolveWith, resolve, habs,
      NonStrictManifestStaticFilesStorage, CompressedManifestStaticFilesStorage,
      ManifestStaticFilesStorage]

/-- C1 witness: at the manifest `{"app.css" ↦ "app.a1b2c3.css"}` and the
absent key `"missing.js"`, the subclass resolves to `"missing.js"` and the
inherited backend fails. -/
theorem nonstrict_only_change_witness :
    Manifest.find [("app.css", "app.a1b2c3.css")] "missing.js" = none ∧
    (NonStrictManifestStaticFilesStorage.manifest_strict = false ∧
    CompressedManifestStaticFilesStorage.manifest_strict = true ∧
    NonStrictManifestStaticFilesStorage =
      { CompressedManifestStaticFilesStorage with manifest_strict := false } ∧
    NonStrictManifestStaticFilesStorage.resolveWith
      [("app.css", "app.a1b2c3.css")] "missing.js" = Except.ok "missing.js" ∧
    CompressedManifestStaticFilesStorage.resolveWith
      [("app.css", "app.a1b2c3.css")] "missing.js" =
      Except.error (ResolveError.MissingManifestEntry "missing.js")) :=
  ⟨by rfl, nonstrict_only_change [("app.css", "app.a1b2c3.css")] "missing.js" (by rfl)⟩

/-- C2: for every key absent from the manifest, with `strict = false`,
`resolve` returns the key unchanged. -/
theorem resolve_absent_nonstrict (m : Manifest) (k : String)
    (habs : m.find k = none) :
    resolve m false k = Except.ok k := by
  simp [resolve, habs]

/-- C2 witness: at the empty manifest and key `"x.png"`, non-strict
resolution returns `"x.png"`. -/
theorem resolve_absent_nonstrict_witness :
    Manifest.find [] "x.png" = none ∧
    resolve [] false "x.png" = Except.ok "x.png" :=
  ⟨by rfl, resolve_absent_nonstrict [] "x.png" (by rfl)⟩

/-- C3: `resolve m strict k` fails if and only if `k` is absent from the
manifest and `strict = true`; the only error ever produced is
`MissingManifestEntry k`; with `strict = false` no error is ever produced. -/
theorem resolve_error_iff (m : Manifest) (strict : Bool) (k : String) :
    ((∃ e, resolve m strict k = Except.error e) ↔
      (m.find k = none ∧ strict = true)) ∧
    (∀ e, resolve m strict k = Except.error e →
      e = ResolveError.MissingManifestEntry k) ∧
    (∀ e, resolve m false k ≠ Except.error e) := by
  unfold resolve
  cases hf : m.find k <;> cases strict <;>
    simp_all

/-- C3 witness: at the manifest `{"app.css" ↦ "app.a1b2c3.css"}`, the
absent key `"missing.js"` and `strict = true`, resolution indeed fails, and
the error-characterisation theorem applies and forces the error to be
`MissingManifestEntry "missing.js"`. -/
theorem resolve_error_iff_witness :
    resolve [("app.css", "app.a1b2c3.css")] true "missing.js" =
      Except.error (ResolveError.MissingManifestEntry "missing.js") ∧
    (∀ e, resolve [("app.css", "app.a1b2c3.css")] true "missing.js" =
        Except.error e → e = ResolveError.MissingManifestEntry "missing.js") :=
  ⟨by rfl, (resolve_error_iff [("app.css", "app.a1b2c3.css")] true "missing.js").2.1⟩
